import Mathlib

/-!
Verification development for the mapper repository (src/src/base.ts).

The engine transforms a source object graph into a destination object graph
according to registered mappings.  We shallowly embed the JavaScript code of
`AutoMapperBase` (src/src/base.ts): JavaScript values become the inductive
`JSValue`; class definitions (constructor functions) are identified by
natural-number tokens whose metadata (name, serialized text, prototype link,
instantiation shape) lives in an `Env`; the two instance fields `_mappings`
and `_classNameMap` become the explicit state `RegState`; thrown errors
become `Except` results; `console.warn` calls and hook invocations become an
event trace.  Helper functions imported by base.ts from modules that are not
part of the provided sources (utils, constants, metadata-explorer) are
modelled from the specification and are marked as such in their doc
comments.  Recursion through nested mappings is made total with a fuel
parameter; fuel exhaustion is a distinguished error that the real code never
produces for inputs it terminates on.
-/

/-- A JavaScript runtime value.  Objects carry the numeric token of their
constructor; arrays and dates are kept as separate constructors so that the
`Array` / `Date` branching of the code is expressible.  Numbers are kept as
integers, which covers every number the claims exercise. -/
inductive JSValue where
  | vNull
  | vUndefined
  | vBool (b : Bool)
  | vNum (n : Int)
  | vStr (s : String)
  | vDate (time : Int)
  | vArr (elems : List JSValue)
  | vObj (ctorId : Nat) (fields : List (String × JSValue))

open JSValue

/-- Reserved constructor token of JavaScript `Array`. -/
def arrayCtorId : Nat := 0

/-- Reserved constructor token of JavaScript `Date`. -/
def dateCtorId : Nat := 1

/-- Reserved constructor token of plain `Object` literals. -/
def plainObjCtorId : Nat := 2

/-- The runtime constructor of a value (`value.constructor`). -/
def ctorIdOf : JSValue → Nat
  | vArr _ => arrayCtorId
  | vDate _ => dateCtorId
  | vObj c _ => c
  | _ => plainObjCtorId

/-- JavaScript truthiness. -/
def jsTruthy : JSValue → Bool
  | vNull => false
  | vUndefined => false
  | vBool b => b
  | vNum n => !(n == 0)
  | vStr s => !(s == "")
  | _ => true

/-- JavaScript `a || b`. -/
def jsOr (a b : JSValue) : JSValue := if jsTruthy a then a else b

/-- Is the value `null` or `undefined`. -/
def isNullish : JSValue → Bool
  | vNull => true
  | vUndefined => true
  | _ => false

/-- Split a property path at the dots, as `"a.b.c".split(".")` does. -/
def splitOnDot (s : String) : List String :=
  (s.data.foldr
    (fun ch acc =>
      match acc with
      | cur :: rest => if ch = '.' then [] :: cur :: rest else (ch :: cur) :: rest
      | [] => [[ch]])
    [[]]).map (fun l => String.mk l)

/-- Read one own property of an object; anything else yields `undefined`. -/
def getField : JSValue → String → JSValue
  | vObj _ fields, k =>
    (fields.foldr (fun kv acc => if kv.1 = k then some kv.2 else acc) none).getD vUndefined
  | _, _ => vUndefined

/-- Replace (in place) or append one field of an association list. -/
def setFieldList : List (String × JSValue) → String → JSValue → List (String × JSValue)
  | [], k, v => [(k, v)]
  | kv :: rest, k, v =>
    if kv.1 = k then (kv.1, v) :: rest else kv :: setFieldList rest k v

/-- Write one own property of an object; writes to non-objects are dropped,
matching the behaviour of lodash `set` on primitive targets. -/
def setField : JSValue → String → JSValue → JSValue
  | vObj c fields, k, v => vObj c (setFieldList fields k v)
  | other, _, _ => other

/-- Nested-path-creating assignment along a list of path segments, the core
of lodash `set`: intermediate plain objects are created as needed. -/
def setPathSegs : JSValue → List String → JSValue → JSValue
  | o, [], _ => o
  | o, [k], v => setField o k v
  | o, k :: k2 :: rest, v =>
    let child :=
      match getField o k with
      | vObj c fields => vObj c fields
      | _ => vObj plainObjCtorId []
    setField o k (setPathSegs child (k2 :: rest) v)

/-- lodash `set(obj, path, value)` for dot-separated paths. -/
def setPath (o : JSValue) (path : String) (v : JSValue) : JSValue :=
  setPathSegs o (splitOnDot path) v

/-- Read along a list of path segments. -/
def getPathSegs : JSValue → List String → JSValue
  | o, [] => o
  | o, k :: rest => getPathSegs (getField o k) rest

/-- Read a dot-separated property path. -/
def getPath (o : JSValue) (path : String) : JSValue :=
  getPathSegs o (splitOnDot path)

/-- Modelled from the spec: the utils helper `_get(object, defaultVal, path)`
(the utils module is not part of the provided sources).  Per the spec the
destination receives `get(source, sourcePath)` when the value is present and
the supplied default otherwise, so an absent or nullish value yields the
default. -/
def _get (obj : JSValue) (defaultVal : JSValue) (path : String) : JSValue :=
  match getPath obj path with
  | vUndefined => defaultVal
  | vNull => defaultVal
  | v => v

/-- Modelled from the spec: the utils helper `_isEmpty` (utils module is not
part of the provided sources).  The spec treats an absent or null value, and
an empty source, as empty: nullish values, the empty string, the empty array
and the fieldless object. -/
def _isEmpty : JSValue → Bool
  | vNull => true
  | vUndefined => true
  | vStr s => s == ""
  | vArr l => l.isEmpty
  | vObj _ l => l.isEmpty
  | _ => false

/-- Modelled from the spec: the utils helper `_isObjectLike` (utils module is
not part of the provided sources): object-like values are objects, arrays
and dates. -/
def _isObjectLike : JSValue → Bool
  | vObj _ _ => true
  | vArr _ => true
  | vDate _ => true
  | _ => false

/-- Modelled from the spec: the utils helper `_isDate` (utils module is not
part of the provided sources). -/
def _isDate : JSValue → Bool
  | vDate _ => true
  | _ => false

/-- Modelled from the spec: the utils helper `_isClass` (utils module is not
part of the provided sources).  Per the spec, class instances, arrays of
sub-objects and dates proceed to mapping, while primitives and plain object
literals do not count as class values. -/
def _isClass : JSValue → Bool
  | vObj c _ => !(c == plainObjCtorId)
  | vArr _ => true
  | vDate _ => true
  | _ => false

/-- Metadata of one class definition (a `Constructible` in the code):
its `name`, the serialized definition `toString()` returns, the prototype
link used by the non-creating hash lookup, and the field shape a fresh
instance carries (consumed by the spec-modelled `instantiate`). -/
structure CtorInfo where
  name : String
  srcText : String
  protoId : Option Nat
  defaultFields : List (String × JSValue)

/-- The ambient world of class definitions, indexed by constructor token. -/
def Env : Type := Nat → CtorInfo

/-- Modelled from the spec: the external `instantiate(type, seed?)` operation
of the metadata-explorer module (not part of the provided sources): it
produces a new instance of the given type, optionally seeded from a plain
data bag, whose properties then become the instance properties. -/
def instantiate (env : Env) (ctorId : Nat) (seed : Option JSValue) : JSValue :=
  match seed with
  | some (vObj _ fields) => vObj ctorId fields
  | some _ => vObj ctorId []
  | none => vObj ctorId (env ctorId).defaultFields

/-- A before/after map hook.  JavaScript hooks are called for their side
effects on the destination object; we model them as a destination
transformer tagged with a label so the trace records which hook ran.  The
shallow mapping copy the code passes as third argument is observational and
not modelled. -/
structure Hook where
  tag : Nat
  run : JSValue → JSValue → JSValue

/-- One observable side effect of mapping execution. -/
inductive Event where
  | hookRun (tag : Nat)
  | warn (msg : String)
deriving DecidableEq

/-- A member naming convention, abstracted (per the spec) to its splitting
rule and its joining rule; the concrete casing algorithms are out of scope.
-/
structure NamingConvention where
  splitPath : String → List String
  joinPath : List String → String

/-- A `preCondition` attached to a transformation: a predicate over the
source object and the default value used when it fails (`undefined` when no
default was configured). -/
structure PreConditionOptions where
  predicate : JSValue → Bool
  defaultValue : JSValue

/-- The tag of a transformation variant, as in types.ts (the enum itself is
not part of the provided sources; the constructor set is read off the
branches of `_mapMember`, keeping the source spelling `NullSubstituion`;
`MapInitialize` names the structurally-inferred default variant). -/
inductive TransformationType where
  | Ignore
  | MapFrom
  | Condition
  | FromValue
  | MapWith
  | ConvertUsing
  | NullSubstituion
  | MapInitialize
deriving DecidableEq

/-- The `transformationType` record carried by every transformation:
an optional precondition and the variant tag. -/
structure TransformationTypeInfo where
  preCondition : Option PreConditionOptions
  type : TransformationType

/-- A `MapFrom` callback: either a plain value selector or a resolver object
exposing `resolve(source, destination, transformation)`; the transformation
argument of a resolver is not modelled (it cannot occur strictly positively)
and no claim consults it. -/
inductive MapFromCallback where
  | selector (f : JSValue → JSValue)
  | resolver (r : JSValue → JSValue → JSValue)

/-- Options of a `ConvertUsing` transformation: the converter (its single
`convert` operation) and the value selector. -/
structure ConvertUsingTransformOptions where
  converter : JSValue → JSValue
  value : JSValue → JSValue

/-- Options of a `MapWith` transformation: the destination sub-type and the
selector locating the sub-object. -/
structure MapWithTransformOptions where
  destination : Nat
  fromValue : JSValue → JSValue

/-- Options of a `Condition` transformation: the predicate and the default
value (`undefined` when none was configured). -/
structure ConditionTransformOptions where
  predicate : JSValue → Bool
  defaultValue : JSValue

/-- The transformation record of one property rule.  Exactly one variant is
meaningful per the `type` tag; unused option slots hold `none`/`undefined`
exactly as absent object properties do. -/
structure MappingTransformation where
  transformationType : TransformationTypeInfo
  mapFrom : Option MapFromCallback
  fromValue : JSValue
  convertUsing : Option ConvertUsingTransformOptions
  mapWith : Option MapWithTransformOptions
  condition : Option ConditionTransformOptions
  nullSubstitution : JSValue

/-- One entry of a mapping's `properties` map: the destination member path,
the recorded implied source member path (used by reverse-mapping
derivation), and the transformation. -/
structure Property where
  destinationMemberPath : String
  sourceMemberPath : Option String
  transformation : MappingTransformation

/-- A registered `Mapping`.  `source`/`destination` are constructor tokens;
`properties` is the insertion-ordered rule list standing for the `Map`. -/
structure MappingV where
  source : Nat
  sourceKey : String
  destination : Nat
  destinationKey : String
  properties : List Property
  sourceMemberNamingConvention : Option NamingConvention
  destinationMemberNamingConvention : Option NamingConvention
  beforeMapAction : Option Hook
  afterMapAction : Option Hook
  baseSource : Option Nat
  baseDestination : Option Nat

/-- Rebuild a mapping with a new property list (the in-place mutation of the
`properties` map). -/
def setProperties (m : MappingV) (ps : List Property) : MappingV :=
  MappingV.mk m.source m.sourceKey m.destination m.destinationKey ps
    m.sourceMemberNamingConvention m.destinationMemberNamingConvention
    m.beforeMapAction m.afterMapAction m.baseSource m.baseDestination

/-- `Map.set` on the property list: replace in place, else append. -/
def propSet : List Property → String → Property → List Property
  | [], _, p => [p]
  | q :: rest, path, p =>
    if q.destinationMemberPath = path then p :: rest else q :: propSet rest path p

/-- Per-call map options (`MapActionOptions`). -/
structure MapActionOptions where
  beforeMap : Option Hook
  afterMap : Option Hook

/-- Modelled from the spec: `defaultMapActionOptions` from constants.ts (not
part of the provided sources); both hooks are optional and absent by
default. -/
def defaultMapActionOptions : MapActionOptions := MapActionOptions.mk none none

/-- Options of `createMapping` (`CreateMapOptions`). -/
structure CreateMapOptions where
  sourceMemberNamingConvention : Option NamingConvention
  destinationMemberNamingConvention : Option NamingConvention

/-- An error thrown by the engine.  The code throws plain `Error`s; we keep
one constructor per distinguishable error condition, carrying the message
where the claims mention it.  `outOfFuel` is the modelling artifact for
exhausted recursion fuel and `typeError` stands for the TypeError JavaScript
raises when a malformed rule dereferences `undefined`. -/
inductive JsErr where
  | duplicateMapping (msg : String)
  | mappingNotFound (msg : String)
  | incompleteMapping (paths : List String)
  | typeError
  | outOfFuel
deriving DecidableEq

/-- The mutable instance state of `AutoMapperBase`: the `_mappings` keyed
object and the `_classNameMap` WeakMap (keyed by constructor token). -/
structure RegState where
  mappings : List (String × MappingV)
  classNameMap : List (Nat × String)

/-- The state a fresh `AutoMapperBase` starts from. -/
def emptyRegState : RegState := RegState.mk [] []

/-- Association-list lookup (JavaScript keyed-object / WeakMap read). -/
def assocGet {α β : Type} [DecidableEq α] : List (α × β) → α → Option β
  | [], _ => none
  | kv :: rest, k => if kv.1 = k then some kv.2 else assocGet rest k

/-- Association-list write: replace in place, else append (JavaScript keyed
object assignment preserves first-insertion order). -/
def assocSet {α β : Type} [DecidableEq α] : List (α × β) → α → β → List (α × β)
  | [], k, v => [(k, v)]
  | kv :: rest, k, v =>
    if kv.1 = k then (kv.1, v) :: rest else kv :: assocSet rest k v

/-- JavaScript `ToInt32`: wrap an exact integer into signed 32-bit range. -/
def jsToInt32 (n : Int) : Int := (n + 2 ^ 31) % 2 ^ 32 - 2 ^ 31

/-- One iteration of the hash loop of `_getHash`:
`hash = (hash << 5) - hash + c; hash = hash & hash;`.  The shift operates on
the 32-bit value and `hash & hash` coerces the exact sum back to 32 bits. -/
def hashStep (h : Int) (c : Nat) : Int := jsToInt32 (jsToInt32 (h * 32) - h + c)

/-- The full hash loop over the character codes of a string. -/
def jsHash (s : String) : Int :=
  s.data.foldl (fun h ch => hashStep h ch.toNat) 0

/-- JavaScript `String.prototype.trim`. -/
def jsStrTrim (s : String) : String :=
  String.mk (((s.data.dropWhile Char.isWhitespace).reverse.dropWhile
    Char.isWhitespace).reverse)

/-- Does `needle` start `hay` (character-wise)? -/
def listStarts : List Char → List Char → Bool
  | [], _ => true
  | _ :: _, [] => false
  | a :: as, b :: bs => a = b && listStarts as bs

/-- JavaScript `hay.includes(needle)`: substring containment. -/
def strContains (hay needle : String) : Bool :=
  (List.range (hay.data.length + 1)).any
    (fun i => listStarts needle.data (hay.data.drop i))

/-- Modelled from the spec: the utils helper `_wrapMappingKey` applied to the
serialized class definition before hashing (utils module is not part of the
provided sources).  The spec describes the identity as a structural hash of
the serialized definition, so the wrapper is kept as the identity on the
text; every claim is insensitive to the particular injective wrapping. -/
def _wrapMappingKey (s : String) : String := s

/-- Modelled from the spec: the utils helper `_getMappingKey` (utils module
is not part of the provided sources): the type-pair key concatenates the two
identity hashes with a delimiter guaranteed not to appear inside either hash
(the hashes are decimal integers, so an underscore qualifies). -/
def _getMappingKey (srcKey destKey : String) : String :=
  srcKey ++ "_" ++ destKey

/-- `_getHash(source, shouldCreate)`: return the cached identity of a class
definition; when absent and `shouldCreate`, hash the trimmed serialized
definition and cache it; when absent and not `shouldCreate`, consult the
prototype link (`_getProto`) and fall back to the empty string. -/
def _getHash (env : Env) (st : RegState) (source : Nat) (shouldCreate : Bool) :
    String × RegState :=
  match assocGet st.classNameMap source with
  | some h => (h, st)
  | none =>
    if shouldCreate then
      let stringify := jsStrTrim (_wrapMappingKey (env source).srcText)
      let hash := jsHash stringify
      (toString hash,
        RegState.mk st.mappings (assocSet st.classNameMap source (toString hash)))
    else
      match (env source).protoId with
      | some p =>
        match assocGet st.classNameMap p with
        | some h => (h, st)
        | none => ("", st)
      | none => ("", st)

/-- `_getHashedNames(source, destination, shouldCreate)`: hash both classes
in order, threading the cache. -/
def _getHashedNames (env : Env) (st : RegState) (source destination : Nat)
    (shouldCreate : Bool) : (String × String) × RegState :=
  let r1 := _getHash env st source shouldCreate
  let r2 := _getHash env r1.2 destination shouldCreate
  ((r1.1, r2.1), r2.2)

/-- `_hasMapping(source, destination, sourceKey?, destinationKey?)`: compute
the type-pair key (recomputing the hashes unless both keys were supplied and
truthy) and throw the duplicate-registration error when a mapping is already
stored under it; otherwise return the key. -/
def _hasMapping (env : Env) (st : RegState) (source destination : Nat)
    (sourceKey destinationKey : Option String) : Except JsErr String × RegState :=
  let keyed : String × RegState :=
    match sourceKey, destinationKey with
    | some sk, some dk =>
      if jsTruthy (vStr sk) && jsTruthy (vStr dk) then (_getMappingKey sk dk, st)
      else
        let r := _getHashedNames env st source destination true
        (_getMappingKey r.1.1 r.1.2, r.2)
    | _, _ =>
      let r := _getHashedNames env st source destination true
      (_getMappingKey r.1.1 r.1.2, r.2)
  match assocGet keyed.2.mappings keyed.1 with
  | some _ =>
    (Except.error (JsErr.duplicateMapping
      ("Mapping for source " ++ (env source).name ++ " and destination "
        ++ (env destination).name ++ " is already existed")), keyed.2)
  | none => (Except.ok keyed.1, keyed.2)

/-- `_createMappingObject(source, destination, options)`: hash both types
(creating identities as needed), fail on a duplicate ordered pair, then
build the fresh sealed mapping and store it under the pair key. -/
def _createMappingObject (env : Env) (st : RegState) (source destination : Nat)
    (options : CreateMapOptions) : Except JsErr MappingV × RegState :=
  let named := _getHashedNames env st source destination true
  match _hasMapping env named.2 source destination (some named.1.1) (some named.1.2) with
  | (Except.error e, st2) => (Except.error e, st2)
  | (Except.ok key, st2) =>
    let m : MappingV :=
      MappingV.mk source (env source).name destination (env destination).name []
        options.sourceMemberNamingConvention options.destinationMemberNamingConvention
        none none none none
    (Except.ok m, RegState.mk (assocSet st2.mappings key m) st2.classNameMap)

/-- `_getMappingForDestination(destination, sourceObj, isInherit)`: look the
pair up through the non-creating hashes; absent mappings throw unless the
call is the speculative inheritance probe. -/
def _getMappingForDestination (env : Env) (st : RegState) (destination : Nat)
    (sourceObj : Nat) (isInherit : Bool) : Except JsErr (Option MappingV) × RegState :=
  let named := _getHashedNames env st sourceObj destination false
  match assocGet named.2.mappings (_getMappingKey named.1.1 named.1.2) with
  | some m => (Except.ok (some m), named.2)
  | none =>
    if isInherit then (Except.ok none, named.2)
    else
      (Except.error (JsErr.mappingNotFound
        ("Mapping not found for source " ++ (env sourceObj).name
          ++ " and destination " ++ (env destination).name)), named.2)

/-- `_getMapping(source, destination)`: look the pair up through creating
hashes and throw when absent. -/
def _getMapping (env : Env) (st : RegState) (source destination : Nat) :
    Except JsErr MappingV × RegState :=
  let named := _getHashedNames env st source destination true
  match assocGet named.2.mappings (_getMappingKey named.1.1 named.1.2) with
  | some m => (Except.ok m, named.2)
  | none =>
    (Except.error (JsErr.mappingNotFound
      ("Mapping not found for source " ++ (env source).name
        ++ " and destination " ++ (env destination).name)), named.2)

/-- `_getMappingForNestedKey(val)`: take the runtime constructor of the
value, fetch its hash without creating one, scan the registered entries
whose key contains that hash, pick the first whose `sourceKey` equals the
constructor name, and resolve the full mapping for that entry's destination.
-/
def _getMappingForNestedKey (env : Env) (st : RegState) (val : JSValue) :
    Except JsErr MappingV × RegState :=
  let c := ctorIdOf val
  let named := _getHash env st c false
  let entries := named.2.mappings.filter (fun kv => strContains kv.1 named.1)
  match entries.find? (fun kv => kv.2.sourceKey == (env c).name) with
  | none =>
    (Except.error (JsErr.mappingNotFound
      ("Mapping not found for source " ++ (env c).name)), named.2)
  | some entry => _getMapping env named.2 c entry.2.destination

/-- Modelled from the spec: the utils helper
`_setMappingPropertyForMapFromMember(path, sourcePath, mapping, fn)` (utils
module is not part of the provided sources).  Per the spec, executing a
`MapFrom` selector records the implied source path for later
reverse-mapping derivation: the property at the destination path is re-set
(in place, Map semantics) to a `MapFrom` rule carrying the resolved source
member path and the same selector. -/
def _setMappingPropertyForMapFromMember (path sourcePath : String)
    (mapping : MappingV) (fn : JSValue → JSValue) : MappingV :=
  setProperties mapping (propSet mapping.properties path
    (Property.mk path (some sourcePath)
      (MappingTransformation.mk (TransformationTypeInfo.mk none TransformationType.MapFrom)
        (some (MapFromCallback.selector fn)) vUndefined none none none vUndefined)))

/-- Modelled from the spec: the utils helper `_assertMappingErrors(obj,
configKeys)` (utils module is not part of the provided sources).  Per the
spec it walks the destination instance's own settable property paths and
raises one consolidated incomplete-mapping error listing every path that is
neither among the configured paths nor successfully set during mapping. -/
def _assertMappingErrors (destinationObj : JSValue) (configKeys : List String) :
    Except JsErr Unit :=
  match destinationObj with
  | vObj _ fields =>
    let unmapped :=
      (fields.filter (fun kv => !(configKeys.contains kv.1) && isNullish kv.2)).map
        (fun kv => kv.1)
    if unmapped.isEmpty then Except.ok () else Except.error (JsErr.incompleteMapping unmapped)
  | _ => Except.ok ()

/-- Modelled from the spec: the utils helper
`_getSourcePropertyKey(destinationConvention, sourceConvention, path)`
(utils module is not part of the provided sources).  Per the spec it splits
the destination path per the destination convention and re-joins per the
source convention; when either convention is unset the path passes through
unchanged. -/
def _getSourcePropertyKey (destinationConvention sourceConvention : Option NamingConvention)
    (path : String) : String :=
  match destinationConvention, sourceConvention with
  | some dc, some sc => sc.joinPath (dc.splitPath path)
  | _, _ => path

/-- Modelled from the spec: the utils helper
`_initializeReversedMappingProperties(mapping)` (utils module is not part of
the provided sources).  Per the spec, a forward rule with a recorded implied
source path inverts to a best-effort structural copy from that path; rules
without a recorded source path are left unmapped in the reverse direction.
-/
def _initializeReversedMappingProperties (mapping : MappingV) : List Property :=
  mapping.properties.foldl
    (fun acc p =>
      match p.sourceMemberPath with
      | some sp =>
        acc ++ [Property.mk sp (some p.destinationMemberPath)
          (MappingTransformation.mk
            (TransformationTypeInfo.mk none TransformationType.MapInitialize)
            (some (MapFromCallback.selector (fun s => getPath s p.destinationMemberPath)))
            vUndefined none none none vUndefined)]
      | none => acc)
    []

/-- Modelled from the spec: the utils helper `_inheritBaseMapping(mapping,
baseMapping)` (utils module is not part of the provided sources).  Per the
spec the base mapping's property rules are merged in wherever the derived
mapping does not already define that destination path. -/
def _inheritBaseMapping (mapping base : MappingV) : MappingV :=
  setProperties mapping (mapping.properties ++ base.properties.filter
    (fun bp => !(mapping.properties.any
      (fun p => p.destinationMemberPath == bp.destinationMemberPath))))

/-- `_createReversedMappingObject(mapping)`: fail on a duplicate reversed
pair, build the reversed mapping (types, keys and conventions swapped, the
invertible rules initialized, base pointers swapped), merge the reverse of
the base pair when the speculative probe finds one, and store the result
under the reversed key. -/
def _createReversedMappingObject (env : Env) (st : RegState) (mapping : MappingV) :
    Except JsErr MappingV × RegState :=
  match _hasMapping env st mapping.destination mapping.source none none with
  | (Except.error e, st1) => (Except.error e, st1)
  | (Except.ok reversedKey, st1) =>
    let rm0 : MappingV :=
      MappingV.mk mapping.destination (env mapping.destination).name
        mapping.source (env mapping.source).name
        (_initializeReversedMappingProperties mapping)
        mapping.destinationMemberNamingConvention mapping.sourceMemberNamingConvention
        none none mapping.baseDestination mapping.baseSource
    let rm1 : MappingV :=
      match rm0.baseSource, rm0.baseDestination with
      | some bs, some bd =>
        match (_getMappingForDestination env st1 bd bs true).1 with
        | Except.ok (some reversedBaseMapping) => _inheritBaseMapping rm0 reversedBaseMapping
        | _ => rm0
      | _, _ => rm0
    (Except.ok rm1, RegState.mk (assocSet st1.mappings reversedKey rm1) st1.classNameMap)

/-- `_dispose()`: drop all mappings and all cached identities. -/
def _dispose (_st : RegState) : RegState := emptyRegState

/-- The result of one engine call: the produced value (destination instance
or destination array) with the possibly updated current mapping, or a thrown
error — plus the registry state and the emitted events. -/
abbrev EngRes := Except JsErr (JSValue × MappingV) × RegState × List Event

/-- The accumulator of the property loop of `_map`: current destination and
mapping, registry state, events, and the `configKeys` gathered so far. -/
abbrev PropAcc := Except JsErr (JSValue × MappingV) × RegState × List Event × List String

/-- The three mutually recursive entry points of the execution engine. -/
inductive Call where
  | mapCall (sourceObj : JSValue) (mapping : MappingV) (option : MapActionOptions)
      (isArrayMap : Bool)
  | arrayCall (sourceArray : List JSValue) (mapping : MappingV)
      (option : MapActionOptions)
  | memberCall (destinationObj : JSValue) (destinationMemberPath : String)
      (sourceObj : JSValue) (propSourceMemberPath : String) (mapping : MappingV)
      (transformation : MappingTransformation)

/-- The source coercion at the top of `_map`: a source instance that is not
an `instanceof` the mapping's source type is re-instantiated from its own
properties. -/
def coerceSource (env : Env) (sourceObj : JSValue) (mapping : MappingV) : JSValue :=
  if ctorIdOf sourceObj = mapping.source then sourceObj
  else instantiate env mapping.source (some sourceObj)

/-- The hook dispatch of `_map` (lines 132-138 and 174-180 of base.ts): when
not inside an array element map, the explicit per-call hook runs, else the
mapping's configured hook, else none; the hook receives the source and the
destination and its in-place effect on the destination is the returned
value.  The second component is the trace of the dispatch. -/
def runHook (explicitHook configuredHook : Option Hook) (isArrayMap : Bool)
    (src dst : JSValue) : JSValue × List Event :=
  if isArrayMap then (dst, [])
  else
    match explicitHook with
    | some h => (h.run src dst, [Event.hookRun h.tag])
    | none =>
      match configuredHook with
      | some h => (h.run src dst, [Event.hookRun h.tag])
      | none => (dst, [])

/-- The body of the property loop of `_map` (lines 141-170 of base.ts),
abstracted over the recursive `_mapMember` call: push the destination path
onto `configKeys`, resolve the source member path through the naming
conventions, and either write the precondition default and skip the rule
(when a precondition is present and fails) or execute the member
transformation.  A previously thrown error short-circuits the loop. -/
def propStep
    (memberRec : JSValue → String → JSValue → String → MappingV →
      MappingTransformation → RegState → EngRes)
    (sourceObj : JSValue)
    (destinationMemberNamingConvention sourceMemberNamingConvention : Option NamingConvention)
    (acc : PropAcc) (prop : Property) : PropAcc :=
  match acc with
  | (Except.error e, st1, evs, cks) => (Except.error e, st1, evs, cks)
  | (Except.ok (d1, m1), st1, evs, cks) =>
    let cks2 := cks ++ [prop.destinationMemberPath]
    let propSourceMemberPath := _getSourcePropertyKey destinationMemberNamingConvention
      sourceMemberNamingConvention prop.destinationMemberPath
    let preFail :=
      match prop.transformation.transformationType.preCondition with
      | some pc => !(pc.predicate sourceObj)
      | none => false
    let preDefault :=
      match prop.transformation.transformationType.preCondition with
      | some pc => pc.defaultValue
      | none => vUndefined
    if preFail then
      (Except.ok (setPath d1 prop.destinationMemberPath (jsOr preDefault vNull), m1),
        st1, evs, cks2)
    else
      match memberRec d1 prop.destinationMemberPath sourceObj propSourceMemberPath m1
          prop.transformation st1 with
      | (Except.ok (d2, m2), st2, evs2) => (Except.ok (d2, m2), st2, evs ++ evs2, cks2)
      | (Except.error e, st2, evs2) => (Except.error e, st2, evs ++ evs2, cks2)

/-- The tail of `_map` after the property loop (base.ts lines 172-182):
run the error aggregator over the gathered `configKeys`, then the after
hook, and assemble the returned destination; a thrown error skips both the
after hook and the return. -/
def finishMap (option : MapActionOptions) (mapping : MappingV) (isArrayMap : Bool)
    (sourceObj : JSValue) (ev1 : List Event) (folded : PropAcc) : EngRes :=
  match folded with
  | (Except.error e, st2, evs, _) => (Except.error e, st2, ev1 ++ evs)
  | (Except.ok (d2, m2), st2, evs, configKeys) =>
    match _assertMappingErrors d2 configKeys with
    | Except.error e => (Except.error e, st2, ev1 ++ evs)
    | Except.ok _ =>
      let after := runHook option.afterMap mapping.afterMapAction isArrayMap sourceObj d2
      (Except.ok (after.1, m2), st2, ev1 ++ evs ++ after.2)

/-- The execution engine: `_map` (base.ts lines 108-183), `_mapArray`
(lines 67-92) and `_mapMember` (lines 185-364) as one fuel-indexed
recursive function.  Nested mapping execution recurses with one unit of
fuel less; exhausted fuel yields the modelling error `outOfFuel`.  Mappings
are values here: the in-place mutation a nested `MapFrom` recording performs
on a registered mapping object is reflected in the nested call's returned
mapping, which the enclosing member step does not write back into the
registry (no claim consults that aliasing). -/
def engine (env : Env) : Nat → Call → RegState → EngRes
  | 0, _, st => (Except.error JsErr.outOfFuel, st, [])
  | Nat.succ fuel, Call.arrayCall sourceArray mapping option, st =>
    -- lines 78-83: the hook sees the freshly bound empty destination, whose
    -- mutation the subsequent rebinding of `destination` discards.
    let ev1 : List Event :=
      match option.beforeMap with
      | some h => [Event.hookRun h.tag]
      | none => []
    -- line 85: destination = sourceArray.map(s => this._map(s, mapping, {}, true))
    let folded :=
      sourceArray.foldl
        (fun (acc : Except JsErr (List JSValue × MappingV) × RegState × List Event) s =>
          match acc with
          | (Except.error e, st1, evs) => (Except.error e, st1, evs)
          | (Except.ok (rs, m1), st1, evs) =>
            match engine env fuel (Call.mapCall s m1 defaultMapActionOptions true) st1 with
            | (Except.ok (d, m2), st2, evs2) => (Except.ok (rs ++ [d], m2), st2, evs ++ evs2)
            | (Except.error e, st2, evs2) => (Except.error e, st2, evs ++ evs2))
        (Except.ok (([] : List JSValue), mapping), st, ev1)
    match folded with
    | (Except.error e, st2, evs) => (Except.error e, st2, evs)
    | (Except.ok (rs, m2), st2, evs) =>
      -- lines 87-89
      match option.afterMap with
      | some h => (Except.ok (h.run (vArr sourceArray) (vArr rs), m2), st2,
          evs ++ [Event.hookRun h.tag])
      | none => (Except.ok (vArr rs, m2), st2, evs)
  | Nat.succ fuel, Call.mapCall sourceObj0 mapping option isArrayMap, st =>
    -- lines 117-118: coerce the source, line 130: instantiate the destination
    let sourceObj := coerceSource env sourceObj0 mapping
    let destinationObj0 := instantiate env mapping.destination none
    -- lines 132-138: before hook
    let before := runHook option.beforeMap mapping.beforeMapAction isArrayMap
      sourceObj destinationObj0
    -- lines 140-170: the property loop over the snapshot of `properties`
    let folded :=
      mapping.properties.foldl
        (propStep
          (fun d p s sp m1 t st1 => engine env fuel (Call.memberCall d p s sp m1 t) st1)
          sourceObj mapping.destinationMemberNamingConvention
          mapping.sourceMemberNamingConvention)
        (Except.ok (before.1, mapping), st, [], [])
    finishMap option mapping isArrayMap sourceObj before.2 folded
  | Nat.succ fuel, Call.memberCall destinationObj destinationMemberPath sourceObj
      propSourceMemberPath mapping transformation, st =>
    let t := transformation.transformationType.type
    if t = TransformationType.Ignore then
      -- lines 206-209
      (Except.ok (setPath destinationObj destinationMemberPath vNull, mapping), st, [])
    else if t = TransformationType.ConvertUsing then
      -- lines 211-219
      match transformation.convertUsing with
      | some cu =>
        (Except.ok (setPath destinationObj destinationMemberPath
          (cu.converter (cu.value sourceObj)), mapping), st, [])
      | none => (Except.error JsErr.typeError, st, [])
    else if t = TransformationType.MapWith then
      -- lines 221-256
      let _source :=
        match transformation.mapWith with
        | some mw => mw.fromValue sourceObj
        | none => vUndefined
      if _isEmpty _source then
        (Except.ok (setPath destinationObj destinationMemberPath vNull, mapping), st,
          [Event.warn (propSourceMemberPath ++ " does not exist")])
      else if !(_isClass _source) then
        (Except.ok (setPath destinationObj destinationMemberPath vNull, mapping), st,
          [Event.warn (destinationMemberPath ++ " is a primitive. No mapping was executed")])
      else
        match transformation.mapWith with
        | none => (Except.error JsErr.typeError, st, [])
        | some mw =>
          -- line 238: the lookup keys on the runtime constructor of _source,
          -- before the Array.isArray branch below.
          match _getMappingForDestination env st mw.destination (ctorIdOf _source) false with
          | (Except.error e, st1) => (Except.error e, st1, [])
          | (Except.ok none, st1) => (Except.error JsErr.typeError, st1, [])
          | (Except.ok (some _mapping), st1) =>
            match _source with
            | vArr xs =>
              -- lines 243-252
              if _isEmpty (xs.headD vUndefined) then
                (Except.ok (setPath destinationObj destinationMemberPath (vArr []),
                  mapping), st1, [])
              else
                match engine env fuel (Call.arrayCall xs _mapping defaultMapActionOptions)
                    st1 with
                | (Except.ok (dArr, _), st2, evs) =>
                  (Except.ok (setPath destinationObj destinationMemberPath dArr, mapping),
                    st2, evs)
                | (Except.error e, st2, evs) => (Except.error e, st2, evs)
            | _ =>
              -- line 254
              match engine env fuel (Call.mapCall _source _mapping defaultMapActionOptions
                  false) st1 with
              | (Except.ok (d, _), st2, evs) =>
                (Except.ok (setPath destinationObj destinationMemberPath d, mapping),
                  st2, evs)
              | (Except.error e, st2, evs) => (Except.error e, st2, evs)
    else if t = TransformationType.FromValue then
      -- lines 258-261
      (Except.ok (setPath destinationObj destinationMemberPath transformation.fromValue,
        mapping), st, [])
    else if t = TransformationType.Condition then
      -- lines 263-279
      match transformation.condition with
      | some c =>
        if c.predicate sourceObj then
          (Except.ok (setPath destinationObj destinationMemberPath
            (_get sourceObj vNull propSourceMemberPath), mapping), st, [])
        else
          (Except.ok (setPath destinationObj destinationMemberPath
            (jsOr c.defaultValue vNull), mapping), st, [])
      | none =>
        (Except.ok (setPath destinationObj destinationMemberPath
          (jsOr vUndefined vNull), mapping), st, [])
    else if t = TransformationType.NullSubstituion then
      -- lines 281-288
      (Except.ok (setPath destinationObj destinationMemberPath
        (_get sourceObj transformation.nullSubstitution propSourceMemberPath), mapping),
        st, [])
    else if t = TransformationType.MapFrom then
      -- lines 290-313
      match transformation.mapFrom with
      | some (MapFromCallback.resolver r) =>
        (Except.ok (setPath destinationObj destinationMemberPath
          (r sourceObj destinationObj), mapping), st, [])
      | some (MapFromCallback.selector f) =>
        let mapFromValue := f sourceObj
        (Except.ok (setPath destinationObj destinationMemberPath mapFromValue,
          _setMappingPropertyForMapFromMember destinationMemberPath propSourceMemberPath
            mapping f), st, [])
      | none => (Except.error JsErr.typeError, st, [])
    else
      -- lines 315-363: structurally-inferred default transformation
      match transformation.mapFrom with
      | some (MapFromCallback.selector f) =>
        match f sourceObj with
        | vUndefined =>
          (Except.ok (setPath destinationObj destinationMemberPath vNull, mapping), st, [])
        | vNull =>
          (Except.ok (setPath destinationObj destinationMemberPath vNull, mapping), st, [])
        | vDate time =>
          -- lines 322-325: dates are cloned by value
          (Except.ok (setPath destinationObj destinationMemberPath (vDate time), mapping),
            st, [])
        | vArr xs =>
          -- lines 327-346
          let _first := xs.headD vUndefined
          if _isEmpty _first then
            (Except.ok (setPath destinationObj destinationMemberPath (vArr []), mapping),
              st, [])
          else if !(_isObjectLike _first) then
            (Except.ok (setPath destinationObj destinationMemberPath (vArr xs), mapping),
              st, [])
          else
            match _getMappingForNestedKey env st _first with
            | (Except.error e, st1) => (Except.error e, st1, [])
            | (Except.ok nestedMapping, st1) =>
              match engine env fuel (Call.arrayCall xs nestedMapping
                  defaultMapActionOptions) st1 with
              | (Except.ok (dArr, _), st2, evs) =>
                (Except.ok (setPath destinationObj destinationMemberPath dArr, mapping),
                  st2, evs)
              | (Except.error e, st2, evs) => (Except.error e, st2, evs)
        | other =>
          -- lines 349-363
          if _isClass other then
            match _getMappingForNestedKey env st other with
            | (Except.error e, st1) => (Except.error e, st1, [])
            | (Except.ok nestedMapping, st1) =>
              match engine env fuel (Call.mapCall other nestedMapping
                  defaultMapActionOptions false) st1 with
              | (Except.ok (d, _), st2, evs) =>
                (Except.ok (setPath destinationObj destinationMemberPath d, mapping),
                  st2, evs)
              | (Except.error e, st2, evs) => (Except.error e, st2, evs)
          else
            (Except.ok (setPath destinationObj destinationMemberPath other, mapping),
              st, [])
      | _ => (Except.error JsErr.typeError, st, [])

/-- `_map(sourceObj, mapping, option, isArrayMap)`. -/
def _map (env : Env) (fuel : Nat) (sourceObj : JSValue) (mapping : MappingV)
    (option : MapActionOptions) (isArrayMap : Bool) (st : RegState) : EngRes :=
  engine env fuel (Call.mapCall sourceObj mapping option isArrayMap) st

/-- `_mapArray(sourceArray, mapping, option)`. -/
def _mapArray (env : Env) (fuel : Nat) (sourceArray : List JSValue) (mapping : MappingV)
    (option : MapActionOptions) (st : RegState) : EngRes :=
  engine env fuel (Call.arrayCall sourceArray mapping option) st

/-- `_mapMember(destinationObj, destinationMemberPath, sourceObj,
propSourceMemberPath, mapping, transformation)`. -/
def _mapMember (env : Env) (fuel : Nat) (destinationObj : JSValue)
    (destinationMemberPath : String) (sourceObj : JSValue) (propSourceMemberPath : String)
    (mapping : MappingV) (transformation : MappingTransformation) (st : RegState) : EngRes :=
  engine env fuel (Call.memberCall destinationObj destinationMemberPath sourceObj
    propSourceMemberPath mapping transformation) st

/-- A deferred computation: the model of the promise
`Promise.resolve().then(cb)` — the callback is scheduled for a later turn
and runs unchanged when the promise is forced. -/
def Deferred (α : Type) : Type := Unit → α

/-- `Promise.resolve().then(cb)`. -/
def Deferred.resolveThen {α : Type} (cb : Unit → α) : Deferred α := cb

/-- Force a deferred computation (the scheduler running the queued turn). -/
def Deferred.runDeferred {α : Type} (d : Deferred α) : α := d ()

/-- `_mapAsync(sourceObj, mapping, option, isArrayMap)` (lines 94-106):
`Promise.resolve().then(() => this._map(sourceObj, mapping, option,
isArrayMap))`. -/
def _mapAsync (env : Env) (fuel : Nat) (sourceObj : JSValue) (mapping : MappingV)
    (option : MapActionOptions) (isArrayMap : Bool) (st : RegState) : Deferred EngRes :=
  Deferred.resolveThen (fun _ => _map env fuel sourceObj mapping option isArrayMap st)

/-- `_mapArrayAsync(sourceArray, mapping, option)` (lines 51-65):
`Promise.resolve().then(() => this._mapArray(sourceArray, mapping, option))`.
-/
def _mapArrayAsync (env : Env) (fuel : Nat) (sourceArray : List JSValue)
    (mapping : MappingV) (option : MapActionOptions) (st : RegState) : Deferred EngRes :=
  Deferred.resolveThen (fun _ => _mapArray env fuel sourceArray mapping option st)

set_option maxRecDepth 1000000

/-- The type-pair key of an ordered pair together with the cache state after
computing it with identity creation, as `_createMappingObject` and the
keyless branch of `_hasMapping` do. -/
def pairKey (env : Env) (st : RegState) (source destination : Nat) : String × RegState :=
  (_getMappingKey (_getHashedNames env st source destination true).1.1
      (_getHashedNames env st source destination true).1.2,
    (_getHashedNames env st source destination true).2)

/-- The mapping object `_createMappingObject` builds and stores. -/
def newMappingObj (env : Env) (s d : Nat) (o : CreateMapOptions) : MappingV :=
  MappingV.mk s (env s).name d (env d).name []
    o.sourceMemberNamingConvention o.destinationMemberNamingConvention
    none none none none

/-- The identity string `_getHash` computes for a class definition on first
sight: the 32-bit string hash of its trimmed serialized definition. -/
def hashOf (env : Env) (c : Nat) : String :=
  toString (jsHash (jsStrTrim (_wrapMappingKey (env c).srcText)))

/-- Projection: the error carried by a failed result. -/
def errOf {α : Type} : Except JsErr α → Option JsErr
  | Except.error e => some e
  | Except.ok _ => none

/-- Projection: did the call succeed. -/
def isOkRes {α : Type} : Except JsErr α → Bool
  | Except.ok _ => true
  | Except.error _ => false

/-- Projection: the destination value of a successful engine result. -/
def okDest : Except JsErr (JSValue × MappingV) → Option JSValue
  | Except.ok (d, _) => some d
  | Except.error _ => none

/-- Projection: the (possibly mutated) mapping of a successful engine
result. -/
def okMapping : Except JsErr (JSValue × MappingV) → Option MappingV
  | Except.ok (_, m) => some m
  | Except.error _ => none

def c1env : Env := fun i =>
  if i = 90 then CtorInfo.mk "P" "class P a" none []
  else if i = 91 then CtorInfo.mk "Q" "class Q b" none []
  else CtorInfo.mk "Object" "" none []

def c1opts : CreateMapOptions := CreateMapOptions.mk none none

def c1st : RegState := (_createMappingObject c1env emptyRegState 90 91 c1opts).2

def c10env : Env := fun i =>
  if i = 100 then CtorInfo.mk "U" "class U u" none []
  else if i = 101 then CtorInfo.mk "V" "class V v" none []
  else CtorInfo.mk "Object" "" none []

def c10fwd : MappingV := newMappingObj c10env 100 101 (CreateMapOptions.mk none none)

def c10stA : RegState :=
  (_createMappingObject c10env
    (_createMappingObject c10env emptyRegState 100 101 (CreateMapOptions.mk none none)).2
    101 100 (CreateMapOptions.mk none none)).2

def c10stB : RegState :=
  (_createMappingObject c10env emptyRegState 100 101 (CreateMapOptions.mk none none)).2

def c2env : Env := fun i =>
  if i = 20 then CtorInfo.mk "A" "class A x" none []
  else if i = 21 then CtorInfo.mk "A" "class A x" none []
  else if i = 22 then CtorInfo.mk "C" "class C y" none []
  else CtorInfo.mk "Object" "" none []

def c2st1 : RegState :=
  (_createMappingObject c2env emptyRegState 20 22 (CreateMapOptions.mk none none)).2

def c3env : Env := fun i =>
  if i = 30 then CtorInfo.mk "S3" "class S3 a" none []
  else if i = 31 then CtorInfo.mk "D3" "class D3 x" none []
  else CtorInfo.mk "Object" "" none []

def c3mapFrom : MappingTransformation :=
  MappingTransformation.mk (TransformationTypeInfo.mk none TransformationType.MapFrom)
    (some (MapFromCallback.selector (fun s => getPath s "a"))) vUndefined
    none none none vUndefined

def c3m : MappingV :=
  MappingV.mk 30 "S3" 31 "D3" [Property.mk "x" none c3mapFrom]
    none none none none none none

def c3run : EngRes :=
  _map c3env 2 (vObj 30 [("a", vNum 1)]) c3m defaultMapActionOptions false emptyRegState

def c4env : Env := fun _ => CtorInfo.mk "Object" "" none []

def c4cond : ConditionTransformOptions :=
  ConditionTransformOptions.mk (fun _ => false) (vNum 0)

def c4t : MappingTransformation :=
  MappingTransformation.mk (TransformationTypeInfo.mk none TransformationType.Condition)
    none vUndefined none none (some c4cond) vUndefined

def c4m : MappingV := MappingV.mk 40 "S4" 41 "D4" [] none none none none none none

def c4run : EngRes :=
  _mapMember c4env 1 (vObj 41 []) "x" (vObj 40 []) "x" c4m c4t emptyRegState

def c5pre : PreConditionOptions := PreConditionOptions.mk (fun _ => false) (vNum 0)

def c5t : MappingTransformation :=
  MappingTransformation.mk (TransformationTypeInfo.mk (some c5pre) TransformationType.FromValue)
    none (vStr "z") none none none vUndefined

def c5p : Property := Property.mk "x" none c5t

def c5m : MappingV := MappingV.mk 40 "S5" 41 "D5" [c5p] none none none none none none

def c5rec : JSValue → String → JSValue → String → MappingV → MappingTransformation →
    RegState → EngRes :=
  fun _ _ _ _ _ _ st => (Except.error JsErr.typeError, st, [])

def c5run : PropAcc :=
  propStep c5rec (vObj 40 []) none none (Except.ok (vObj 41 [], c5m), emptyRegState, [], []) c5p

def c6env : Env := fun i =>
  if i = 50 then CtorInfo.mk "S6" "class S6 xs" none []
  else if i = 51 then CtorInfo.mk "D6" "class D6 ys" none []
  else if i = 52 then CtorInfo.mk "X" "class X a" none []
  else if i = 53 then CtorInfo.mk "Y" "class Y b" none []
  else if i = 0 then CtorInfo.mk "Array" "function Array" none []
  else CtorInfo.mk "Object" "" none []

def c6st : RegState :=
  (_createMappingObject c6env
    (_createMappingObject c6env emptyRegState 52 53 (CreateMapOptions.mk none none)).2
    50 51 (CreateMapOptions.mk none none)).2

def c6mapWith : MappingTransformation :=
  MappingTransformation.mk (TransformationTypeInfo.mk none TransformationType.MapWith)
    none vUndefined none
    (some (MapWithTransformOptions.mk 53 (fun s => getPath s "xs"))) none vUndefined

def c6m : MappingV :=
  MappingV.mk 50 "S6" 51 "D6" [Property.mk "ys" none c6mapWith]
    none none none none none none

def c6run : EngRes :=
  _mapMember c6env 5 (vObj 51 []) "ys" (vObj 50 [("xs", vArr [vNull])]) "ys"
    c6m c6mapWith c6st

def c6mapInit : MappingTransformation :=
  MappingTransformation.mk (TransformationTypeInfo.mk none TransformationType.MapInitialize)
    (some (MapFromCallback.selector (fun s => getPath s "xs"))) vUndefined
    none none none vUndefined

def c6runDefault : EngRes :=
  _mapMember c6env 5 (vObj 51 []) "ys" (vObj 50 [("xs", vArr [vNull])]) "ys"
    c6m c6mapInit c6st

def c7t : MappingTransformation :=
  MappingTransformation.mk (TransformationTypeInfo.mk none TransformationType.Ignore)
    none vUndefined none none none vUndefined

def c7m : MappingV := MappingV.mk 60 "S7" 61 "D7" [] none none none none none none

/-- The trace of the hook dispatch: the explicit per-call hook when present,
else the configured hook, else nothing — never both. -/
def hookChoiceEvents (explicitHook configuredHook : Option Hook) : List Event :=
  match explicitHook with
  | some h => [Event.hookRun h.tag]
  | none =>
    match configuredHook with
    | some h => [Event.hookRun h.tag]
    | none => []

theorem assocGet_assocSet_self {α β : Type} [DecidableEq α] (l : List (α × β)) (k : α)
    (v : β) : assocGet (assocSet l k v) k = some v := by
  induction l with
  | nil => simp [assocSet, assocGet]
  | cons kv rest ih =>
    by_cases h : kv.1 = k
    · simp [assocSet, assocGet, h]
    · simp [assocSet, assocGet, h, ih]

theorem assocGet_assocSet_ne {α β : Type} [DecidableEq α] (l : List (α × β)) (k k' : α)
    (v : β) (h : k ≠ k') : assocGet (assocSet l k v) k' = assocGet l k' := by
  induction l with
  | nil => simp [assocSet, assocGet, h]
  | cons kv rest ih =>
    by_cases h1 : kv.1 = k
    · have h2 : kv.1 ≠ k' := h1 ▸ h
      simp [assocSet, assocGet, h1, h2, h]
    · simp [assocSet, assocGet, h1, ih]

theorem getHash_mappings (env : Env) (st : RegState) (c : Nat) (b : Bool) :
    ((_getHash env st c b).2).mappings = st.mappings := by
  unfold _getHash
  cases h : assocGet st.classNameMap c
  · cases b
    · cases hp : (env c).protoId with
      | none => simp [h, hp]
      | some p =>
        cases hq : assocGet st.classNameMap p with
        | none => simp [h, hp, hq]
        | some hv => simp [h, hp, hq]
    · simp [h]
  · simp [h]

theorem getHash_cached_of_create (env : Env) (st : RegState) (c : Nat) :
    assocGet ((_getHash env st c true).2).classNameMap c
      = some ((_getHash env st c true).1) := by
  unfold _getHash
  cases h : assocGet st.classNameMap c
  · simp [h, assocGet_assocSet_self]
  · simp [h]

theorem getHash_of_cached (env : Env) (st : RegState) (c : Nat) (b : Bool) (hv : String)
    (hc : assocGet st.classNameMap c = some hv) : _getHash env st c b = (hv, st) := by
  unfold _getHash
  simp [hc]

theorem getHash_cache_mono (env : Env) (st : RegState) (c x : Nat) (hx : String)
    (h : assocGet st.classNameMap x = some hx) :
    assocGet ((_getHash env st c true).2).classNameMap x = some hx := by
  unfold _getHash
  cases hc : assocGet st.classNameMap c
  · by_cases hxc : c = x
    · subst hxc
      rw [h] at hc
      cases hc
    · simp [hc, assocGet_assocSet_ne _ _ _ _ hxc, h]
  · simp [hc, h]

theorem getHashedNames_mappings (env : Env) (st : RegState) (s d : Nat) (b : Bool) :
    ((_getHashedNames env st s d b).2).mappings = st.mappings := by
  unfold _getHashedNames
  rw [getHash_mappings, getHash_mappings]

theorem getHashedNames_idem (env : Env) (st : RegState) (s d : Nat) :
    _getHashedNames env ((_getHashedNames env st s d true).2) s d true
      = _getHashedNames env st s d true := by
  have hs : assocGet ((_getHash env st s true).2).classNameMap s
      = some ((_getHash env st s true).1) := getHash_cached_of_create env st s
  have hs2 : assocGet ((_getHash env ((_getHash env st s true).2) d true).2).classNameMap s
      = some ((_getHash env st s true).1) :=
    getHash_cache_mono env ((_getHash env st s true).2) d s ((_getHash env st s true).1) hs
  have hd : assocGet ((_getHash env ((_getHash env st s true).2) d true).2).classNameMap d
      = some ((_getHash env ((_getHash env st s true).2) d true).1) :=
    getHash_cached_of_create env ((_getHash env st s true).2) d
  have e1 := getHash_of_cached env ((_getHash env ((_getHash env st s true).2) d true).2)
    s true ((_getHash env st s true).1) hs2
  have e2 := getHash_of_cached env ((_getHash env ((_getHash env st s true).2) d true).2)
    d true ((_getHash env ((_getHash env st s true).2) d true).1) hd
  unfold _getHashedNames
  simp only [e1, e2]

theorem pairKey_mappings (env : Env) (st : RegState) (s d : Nat) :
    ((pairKey env st s d).2).mappings = st.mappings := by
  unfold pairKey
  exact getHashedNames_mappings env st s d true

theorem hasMapping_createdKeys (env : Env) (st : RegState) (s d : Nat) :
    _hasMapping env ((_getHashedNames env st s d true).2) s d
      (some ((_getHashedNames env st s d true).1.1))
      (some ((_getHashedNames env st s d true).1.2))
    = (match assocGet st.mappings (pairKey env st s d).1 with
        | some _ => Except.error (JsErr.duplicateMapping
            ("Mapping for source " ++ (env s).name ++ " and destination "
              ++ (env d).name ++ " is already existed"))
        | none => Except.ok (pairKey env st s d).1,
       (_getHashedNames env st s d true).2) := by
  unfold _hasMapping
  rw [getHashedNames_idem env st s d]
  simp only [ite_self, pairKey]
  rw [getHashedNames_mappings env st s d true]
  cases hm : assocGet st.mappings
      (_getMappingKey (_getHashedNames env st s d true).1.1
        (_getHashedNames env st s d true).1.2) with
  | some m => simp [hm]
  | none => simp [hm]

theorem hasMapping_noKeys (env : Env) (st : RegState) (s d : Nat) :
    _hasMapping env st s d none none
    = (match assocGet st.mappings (pairKey env st s d).1 with
        | some _ => Except.error (JsErr.duplicateMapping
            ("Mapping for source " ++ (env s).name ++ " and destination "
              ++ (env d).name ++ " is already existed"))
        | none => Except.ok (pairKey env st s d).1,
       (pairKey env st s d).2) := by
  unfold _hasMapping
  simp only [pairKey]
  rw [getHashedNames_mappings env st s d true]
  cases hm : assocGet st.mappings
      (_getMappingKey (_getHashedNames env st s d true).1.1
        (_getHashedNames env st s d true).1.2) with
  | some m => simp [hm]
  | none => simp [hm]

theorem createMappingObject_char (env : Env) (st : RegState) (s d : Nat)
    (o : CreateMapOptions) :
    _createMappingObject env st s d o
    = (match assocGet st.mappings (pairKey env st s d).1 with
        | some _ => (Except.error (JsErr.duplicateMapping
            ("Mapping for source " ++ (env s).name ++ " and destination "
              ++ (env d).name ++ " is already existed")), (pairKey env st s d).2)
        | none => (Except.ok (newMappingObj env s d o),
            RegState.mk (assocSet st.mappings (pairKey env st s d).1 (newMappingObj env s d o))
              ((pairKey env st s d).2).classNameMap)) := by
  unfold _createMappingObject
  simp only [hasMapping_createdKeys]
  cases hm : assocGet st.mappings (pairKey env st s d).1 with
  | some m =>
    simp only [hm, pairKey]
  | none =>
    simp only [hm, pairKey, newMappingObj]
    rw [getHashedNames_mappings env st s d true]

theorem createMappingObject_dup (env : Env) (st : RegState) (s d : Nat)
    (o : CreateMapOptions)
    (h : (assocGet st.mappings (pairKey env st s d).1).isSome = true) :
    (∃ msg, (_createMappingObject env st s d o).1
      = Except.error (JsErr.duplicateMapping msg))
    ∧ ((_createMappingObject env st s d o).2).mappings = st.mappings := by
  obtain ⟨m, hm⟩ := Option.isSome_iff_exists.mp h
  rw [createMappingObject_char, hm]
  exact ⟨⟨_, rfl⟩, pairKey_mappings env st s d⟩

theorem createMappingObject_fresh (env : Env) (st : RegState) (s d : Nat)
    (o : CreateMapOptions)
    (h : assocGet st.mappings (pairKey env st s d).1 = none) :
    _createMappingObject env st s d o
    = (Except.ok (newMappingObj env s d o),
        RegState.mk (assocSet st.mappings (pairKey env st s d).1 (newMappingObj env s d o))
          ((pairKey env st s d).2).classNameMap) := by
  rw [createMappingObject_char, h]

/-- C1: createMapping on an already-registered ordered type pair fails with
the duplicate-mapping error and leaves the stored mappings untouched: no
mapping is added, removed or replaced by the failed call. -/
theorem c1_create_mapping_duplicate (env : Env) (st : RegState) (source destination : Nat)
    (options : CreateMapOptions)
    (h : (assocGet st.mappings (pairKey env st source destination).1).isSome = true) :
    (∃ msg, (_createMappingObject env st source destination options).1
      = Except.error (JsErr.duplicateMapping msg))
    ∧ ((_createMappingObject env st source destination options).2).mappings = st.mappings :=
  createMappingObject_dup env st source destination options h

/-- C1 witness: after registering (P, Q), registering (P, Q) again fails with
the duplicate error and leaves the mapping table unchanged. -/
theorem c1_create_mapping_duplicate_witness :
    (∃ msg, (_createMappingObject c1env c1st 90 91 c1opts).1
      = Except.error (JsErr.duplicateMapping msg))
    ∧ ((_createMappingObject c1env c1st 90 91 c1opts).2).mappings = c1st.mappings :=
  c1_create_mapping_duplicate c1env c1st 90 91 c1opts (by rfl)

/-- C10: deriving a reverse mapping fails with the duplicate-mapping error
exactly when the reversed ordered pair is already registered, in which case
the mapping table is unchanged; otherwise the reversed mapping is stored
under the reversed pair key. -/
theorem c10_reverse_mapping_registration (env : Env) (st : RegState) (fwd : MappingV) :
    ((assocGet st.mappings (pairKey env st fwd.destination fwd.source).1).isSome = true →
      (∃ msg, (_createReversedMappingObject env st fwd).1
        = Except.error (JsErr.duplicateMapping msg))
      ∧ ((_createReversedMappingObject env st fwd).2).mappings = st.mappings)
    ∧ (assocGet st.mappings (pairKey env st fwd.destination fwd.source).1 = none →
      ∃ rm, (_createReversedMappingObject env st fwd).1 = Except.ok rm
        ∧ ((_createReversedMappingObject env st fwd).2).mappings
          = assocSet st.mappings (pairKey env st fwd.destination fwd.source).1 rm) := by
  unfold _createReversedMappingObject
  simp only [hasMapping_noKeys]
  constructor
  · intro h
    obtain ⟨m, hm⟩ := Option.isSome_iff_exists.mp h
    simp only [hm]
    exact ⟨⟨_, rfl⟩, pairKey_mappings env st fwd.destination fwd.source⟩
  · intro h
    simp only [h]
    refine ⟨_, rfl, ?_⟩
    rw [pairKey_mappings env st fwd.destination fwd.source]

/-- C10 witness: with (V, U) already registered the derivation of the
reverse of (U, V) fails and changes nothing; with it absent the derivation
succeeds and stores the reversed mapping. -/
theorem c10_reverse_mapping_registration_witness :
    ((∃ msg, (_createReversedMappingObject c10env c10stA c10fwd).1
        = Except.error (JsErr.duplicateMapping msg))
      ∧ ((_createReversedMappingObject c10env c10stA c10fwd).2).mappings = c10stA.mappings)
    ∧ (∃ rm, (_createReversedMappingObject c10env c10stB c10fwd).1 = Except.ok rm
        ∧ ((_createReversedMappingObject c10env c10stB c10fwd).2).mappings
          = assocSet c10stB.mappings (pairKey c10env c10stB c10fwd.destination c10fwd.source).1 rm) :=
  ⟨(c10_reverse_mapping_registration c10env c10stA c10fwd).1 (by rfl),
   (c10_reverse_mapping_registration c10env c10stB c10fwd).2 (by rfl)⟩

/-- C2 counterexample: tokens 20 and 21 are two distinct type definitions
with identical serialized definitions.  Registering (20, 22) succeeds, but
the subsequent registration of (21, 22) fails with the duplicate-mapping
error, because the identity of a type is the content hash of its serialized
definition, not a per-definition opaque identifier — refuting the claim that
the second call succeeds. -/
theorem c2_distinct_identity_counterexample :
    isOkRes (_createMappingObject c2env emptyRegState 20 22
      (CreateMapOptions.mk none none)).1 = true
    ∧ (match (_createMappingObject c2env c2st1 21 22 (CreateMapOptions.mk none none)).1 with
        | Except.error (JsErr.duplicateMapping _) => true
        | _ => false) = true :=
  ⟨rfl, rfl⟩

/-- C2 amended: the registry keys a type definition by the hash of its
serialized definition, cached per definition object; for any two distinct
definitions with identical serialized text, registering (A, C) and then
(B, C) from a fresh registry succeeds for the first call and fails with the
duplicate-mapping error for the second, because A and B receive the same
identity. -/
theorem c2_identity_is_serialized_hash (env : Env) (s1 s2 d : Nat)
    (o1 o2 : CreateMapOptions) (hne : s1 ≠ s2) (h1d : s1 ≠ d) (h2d : s2 ≠ d)
    (htext : (env s1).srcText = (env s2).srcText) :
    (∃ m1, (_createMappingObject env emptyRegState s1 d o1).1 = Except.ok m1)
    ∧ (∃ msg, (_createMappingObject env
        ((_createMappingObject env emptyRegState s1 d o1).2) s2 d o2).1
      = Except.error (JsErr.duplicateMapping msg)) := by
  have hfree : assocGet emptyRegState.mappings (pairKey env emptyRegState s1 d).1 = none := by
    simp [emptyRegState, assocGet]
  have hc1 := createMappingObject_fresh env emptyRegState s1 d o1 hfree
  have hhash1 : _getHash env emptyRegState s1 true
      = (hashOf env s1, RegState.mk [] [(s1, hashOf env s1)]) := by
    simp [_getHash, emptyRegState, assocGet, assocSet, hashOf]
  have hhash2 : _getHash env (RegState.mk [] [(s1, hashOf env s1)]) d true
      = (hashOf env d,
          RegState.mk [] [(s1, hashOf env s1), (d, hashOf env d)]) := by
    simp [_getHash, assocGet, assocSet, hashOf, h1d]
  have hpk1 : pairKey env emptyRegState s1 d
      = (_getMappingKey (hashOf env s1) (hashOf env d),
          RegState.mk [] [(s1, hashOf env s1), (d, hashOf env d)]) := by
    simp [pairKey, _getHashedNames, hhash1, hhash2]
  have hst1 : (_createMappingObject env emptyRegState s1 d o1).2
      = RegState.mk
          [(_getMappingKey (hashOf env s1) (hashOf env d), newMappingObj env s1 d o1)]
          [(s1, hashOf env s1), (d, hashOf env d)] := by
    rw [hc1, hpk1]
    simp [emptyRegState, assocSet]
  have hs2eq : hashOf env s2 = hashOf env s1 := by
    unfold hashOf
    rw [htext]
  constructor
  · rw [hc1]
    exact ⟨_, rfl⟩
  · rw [hst1]
    have hhash3 : _getHash env (RegState.mk
        [(_getMappingKey (hashOf env s1) (hashOf env d), newMappingObj env s1 d o1)]
        [(s1, hashOf env s1), (d, hashOf env d)]) s2 true
        = (hashOf env s1, RegState.mk
            [(_getMappingKey (hashOf env s1) (hashOf env d), newMappingObj env s1 d o1)]
            [(s1, hashOf env s1), (d, hashOf env d), (s2, hashOf env s1)]) := by
      simp [_getHash, assocGet, assocSet, hashOf, hne, Ne.symm h2d, ← htext]
    have hhash4 : _getHash env (RegState.mk
        [(_getMappingKey (hashOf env s1) (hashOf env d), newMappingObj env s1 d o1)]
        [(s1, hashOf env s1), (d, hashOf env d), (s2, hashOf env s1)]) d true
        = (hashOf env d, RegState.mk
            [(_getMappingKey (hashOf env s1) (hashOf env d), newMappingObj env s1 d o1)]
            [(s1, hashOf env s1), (d, hashOf env d), (s2, hashOf env s1)]) := by
      simp [_getHash, assocGet, h1d]
    have hpk2 : pairKey env (RegState.mk
        [(_getMappingKey (hashOf env s1) (hashOf env d), newMappingObj env s1 d o1)]
        [(s1, hashOf env s1), (d, hashOf env d)]) s2 d
        = (_getMappingKey (hashOf env s1) (hashOf env d), RegState.mk
            [(_getMappingKey (hashOf env s1) (hashOf env d), newMappingObj env s1 d o1)]
            [(s1, hashOf env s1), (d, hashOf env d), (s2, hashOf env s1)]) := by
      simp [pairKey, _getHashedNames, hhash3, hhash4]
    have hdup : (assocGet (RegState.mk
        [(_getMappingKey (hashOf env s1) (hashOf env d), newMappingObj env s1 d o1)]
        [(s1, hashOf env s1), (d, hashOf env d)]).mappings
        (pairKey env (RegState.mk
          [(_getMappingKey (hashOf env s1) (hashOf env d), newMappingObj env s1 d o1)]
          [(s1, hashOf env s1), (d, hashOf env d)]) s2 d).1).isSome = true := by
      rw [hpk2]
      simp [assocGet]
    exact (createMappingObject_dup env _ s2 d o2 hdup).1

/-- C2 witness for the amended theorem: the hypotheses hold at the concrete
identically-serialized definitions 20 and 21 and destination 22. -/
theorem c2_identity_is_serialized_hash_witness :
    (∃ m1, (_createMappingObject c2env emptyRegState 20 22
      (CreateMapOptions.mk none none)).1 = Except.ok m1)
    ∧ (∃ msg, (_createMappingObject c2env
        ((_createMappingObject c2env emptyRegState 20 22 (CreateMapOptions.mk none none)).2)
        21 22 (CreateMapOptions.mk none none)).1
      = Except.error (JsErr.duplicateMapping msg)) :=
  c2_identity_is_serialized_hash c2env 20 21 22 (CreateMapOptions.mk none none)
    (CreateMapOptions.mk none none) (by decide) (by decide) (by decide) rfl

/-- C3 counterexample: executing the map on a mapping whose single rule is a
MapFrom selector succeeds and returns a mapping whose property rule now
records the implied source path — the returned mapping differs from the one
the execution started from, refuting the claim that map execution leaves the
mapping unchanged. -/
theorem c3_mapfrom_mutation_counterexample :
    (okMapping c3run.1).map (fun m => m.properties.map (fun p => p.sourceMemberPath))
      = some [some "x"]
    ∧ okMapping c3run.1 ≠ some c3m := by
  refine ⟨rfl, ?_⟩
  intro h
  have h2 := congrArg
    (fun o => Option.map (fun m => List.map
      (fun p => p.sourceMemberPath) m.properties) o) h
  exact absurd h2 (by decide)

/-- C3 amended: a mapping is mutated by map execution in exactly one case:
executing a MapFrom rule whose callback is a plain selector re-records that
property rule (with the resolved source member path) in the mapping;
executing a resolver MapFrom rule, or an Ignore, FromValue, Condition,
NullSubstitution or ConvertUsing rule, returns the mapping unchanged. -/
theorem c3_mapfrom_mutation_characterization (env : Env) (fuel : Nat) (d : JSValue)
    (path : String) (s : JSValue) (sp : String) (m : MappingV)
    (t : MappingTransformation) (st : RegState) :
    (∀ f, t.transformationType.type = TransformationType.MapFrom →
      t.mapFrom = some (MapFromCallback.selector f) →
      _mapMember env (fuel + 1) d path s sp m t st
        = (Except.ok (setPath d path (f s),
            _setMappingPropertyForMapFromMember path sp m f), st, []))
    ∧ (∀ r, t.transformationType.type = TransformationType.MapFrom →
      t.mapFrom = some (MapFromCallback.resolver r) →
      _mapMember env (fuel + 1) d path s sp m t st
        = (Except.ok (setPath d path (r s d), m), st, []))
    ∧ (t.transformationType.type ∈ [TransformationType.Ignore, TransformationType.FromValue,
        TransformationType.Condition, TransformationType.NullSubstituion,
        TransformationType.ConvertUsing] →
      ∀ v m', (_mapMember env (fuel + 1) d path s sp m t st).1 = Except.ok (v, m') →
        m' = m) := by
  refine ⟨?_, ?_, ?_⟩
  · intro f h1 h2
    simp only [_mapMember, engine, h1, h2]
    rfl
  · intro r h1 h2
    simp only [_mapMember, engine, h1, h2]
    rfl
  · intro hmem v m' hok
    simp only [List.mem_cons, List.not_mem_nil, or_false] at hmem
    rcases hmem with h | h | h | h | h
    · simp only [_mapMember, engine, h, reduceCtorEq, ite_true, ite_false] at hok
      exact (congrArg Prod.snd (Except.ok.inj hok)).symm
    · simp only [_mapMember, engine, h, reduceCtorEq, ite_true, ite_false] at hok
      exact (congrArg Prod.snd (Except.ok.inj hok)).symm
    · simp only [_mapMember, engine, h, reduceCtorEq, ite_true, ite_false] at hok
      split at hok
      · split at hok
        · exact (congrArg Prod.snd (Except.ok.inj hok)).symm
        · exact (congrArg Prod.snd (Except.ok.inj hok)).symm
      · exact (congrArg Prod.snd (Except.ok.inj hok)).symm
    · simp only [_mapMember, engine, h, reduceCtorEq, ite_true, ite_false] at hok
      exact (congrArg Prod.snd (Except.ok.inj hok)).symm
    · simp only [_mapMember, engine, h, reduceCtorEq, ite_true, ite_false] at hok
      split at hok
      · exact (congrArg Prod.snd (Except.ok.inj hok)).symm
      · exact Except.noConfusion hok

/-- C3 witness for the amended theorem: the MapFrom selector case at a
concrete rule, showing the recorded property re-registration. -/
theorem c3_mapfrom_mutation_characterization_witness :
    _mapMember c3env 1 (vObj 31 []) "x" (vObj 30 [("a", vNum 7)]) "x" c3m c3mapFrom
      emptyRegState
      = (Except.ok (setPath (vObj 31 []) "x" (getPath (vObj 30 [("a", vNum 7)]) "a"),
          _setMappingPropertyForMapFromMember "x" "x" c3m (fun s => getPath s "a")),
        emptyRegState, []) :=
  (c3_mapfrom_mutation_characterization c3env 0 (vObj 31 []) "x" (vObj 30 [("a", vNum 7)])
    "x" c3m c3mapFrom emptyRegState).1 (fun s => getPath s "a") rfl rfl

/-- C4 counterexample: a Condition rule whose predicate fails and whose
configured default value is the falsy number 0 writes null to the
destination path, not the configured default — refuting the claim that a
configured falsy default is used. -/
theorem c4_condition_falsy_default_counterexample :
    okDest c4run.1 = some (vObj 41 [("x", vNull)]) ∧ vNull ≠ vNum 0 :=
  ⟨rfl, fun h => JSValue.noConfusion h⟩

/-- C4 amended: a Condition rule writes `get(source, resolvedSourcePath)`
when the predicate holds; when it fails it writes the configured default
only when that default is truthy, and null when the default is falsy or
none was configured (the code computes `defaultValue || null`). -/
theorem c4_condition_rule (env : Env) (fuel : Nat) (d : JSValue) (path : String)
    (s : JSValue) (sp : String) (m : MappingV) (t : MappingTransformation)
    (c : ConditionTransformOptions) (st : RegState)
    (h1 : t.transformationType.type = TransformationType.Condition)
    (h2 : t.condition = some c) :
    _mapMember env (fuel + 1) d path s sp m t st
      = (Except.ok (setPath d path
          (if c.predicate s then _get s vNull sp else jsOr c.defaultValue vNull), m),
        st, []) := by
  simp only [_mapMember, engine, h1, h2, reduceCtorEq, ite_true, ite_false]
  cases hp : c.predicate s
  · simp [hp]
  · simp [hp]

/-- C4 witness for the amended theorem at a concrete failing predicate with
the falsy configured default 0. -/
theorem c4_condition_rule_witness :
    _mapMember c4env 1 (vObj 41 []) "x" (vObj 40 []) "x" c4m c4t emptyRegState
      = (Except.ok (setPath (vObj 41 []) "x"
          (if c4cond.predicate (vObj 40 []) then _get (vObj 40 []) vNull "x"
            else jsOr c4cond.defaultValue vNull), c4m), emptyRegState, []) :=
  c4_condition_rule c4env 0 (vObj 41 []) "x" (vObj 40 []) "x" c4m c4t c4cond
    emptyRegState rfl rfl

/-- C5 counterexample: a property rule with a failing preCondition whose
configured default is the falsy number 0, and whose variant is
FromValue "z", writes null — not the configured default 0 (and not "z",
so the variant logic is indeed skipped), refuting the claim that a
configured falsy default is used. -/
theorem c5_precondition_falsy_default_counterexample :
    c5run = (Except.ok (vObj 41 [("x", vNull)], c5m), emptyRegState, [], ["x"])
    ∧ vNull ≠ vNum 0 ∧ vNull ≠ vStr "z" :=
  ⟨rfl, fun h => JSValue.noConfusion h, fun h => JSValue.noConfusion h⟩

/-- C5 amended: when a property rule carries a preCondition whose predicate
fails on the source, the loop step writes the precondition default if it is
truthy and null otherwise (the code computes `defaultValue || null`), and
the variant-specific logic is skipped entirely: the result does not invoke
the member transformation at all — the statement quantifies over an
arbitrary member-execution continuation, so the preCondition is decided
before any variant logic runs. -/
theorem c5_precondition_skip
    (memberRec : JSValue → String → JSValue → String → MappingV →
      MappingTransformation → RegState → EngRes)
    (src : JSValue) (dc sc : Option NamingConvention) (d : JSValue) (m : MappingV)
    (st : RegState) (evs : List Event) (cks : List String) (prop : Property)
    (pc : PreConditionOptions)
    (h1 : prop.transformation.transformationType.preCondition = some pc)
    (h2 : pc.predicate src = false) :
    propStep memberRec src dc sc (Except.ok (d, m), st, evs, cks) prop
      = (Except.ok (setPath d prop.destinationMemberPath (jsOr pc.defaultValue vNull), m),
        st, evs, cks ++ [prop.destinationMemberPath]) := by
  simp only [propStep, h1, h2]
  rfl

/-- C5 witness for the amended theorem at a concrete failing precondition,
with a continuation that would throw if the variant logic were reached. -/
theorem c5_precondition_skip_witness :
    propStep c5rec (vObj 40 []) none none
      (Except.ok (vObj 41 [], c5m), emptyRegState, [], []) c5p
      = (Except.ok (vObj 41 [("x", vNull)], c5m), emptyRegState, [], ["x"]) :=
  c5_precondition_skip c5rec (vObj 40 []) none none (vObj 41 []) c5m emptyRegState
    [] [] c5p c5pre rfl rfl

/-- C6: evaluation at the failing input.  With the nested pair (X, Y) and
the outer pair (S6, D6) registered, a MapWith rule whose selector yields the
array `[null]` does not set the destination to the empty array: the nested
lookup at base.ts line 238 runs before the `Array.isArray` branch and keys
on the runtime constructor of the selected value — the `Array` constructor,
which was never registered — so the call throws MappingNotFoundError.  The
structurally-inferred default rule on the same value behaves as the claim
says and yields the empty array. -/
theorem c6_mapwith_array_lookup_bug :
    errOf c6run.1
      = some (JsErr.mappingNotFound
          "Mapping not found for source Array and destination Y")
    ∧ okDest c6runDefault.1 = some (vObj 51 [("ys", vArr [])]) :=
  ⟨rfl, rfl⟩

/-- C7: an Ignore rule always writes null at the destination path, whatever
the source object holds. -/
theorem c7_ignore_rule (env : Env) (fuel : Nat) (d : JSValue) (path : String)
    (s : JSValue) (sp : String) (m : MappingV) (t : MappingTransformation)
    (st : RegState) (h : t.transformationType.type = TransformationType.Ignore) :
    _mapMember env (fuel + 1) d path s sp m t st
      = (Except.ok (setPath d path vNull, m), st, []) := by
  simp only [_mapMember, engine, h, reduceCtorEq, ite_true, ite_false]

/-- C7 witness at a concrete source carrying data: the destination still
receives null. -/
theorem c7_ignore_rule_witness :
    _mapMember c4env 1 (vObj 61 []) "x" (vObj 60 [("junk", vNum 9)]) "x" c7m c7t
      emptyRegState
      = (Except.ok (setPath (vObj 61 []) "x" vNull, c7m), emptyRegState, []) :=
  c7_ignore_rule c4env 0 (vObj 61 []) "x" (vObj 60 [("junk", vNum 9)]) "x" c7m c7t
    emptyRegState rfl

theorem runHook_events (e c : Option Hook) (s d : JSValue) :
    (runHook e c false s d).2 = hookChoiceEvents e c := by
  cases e <;> cases c <;> rfl

theorem finishMap_events (opt : MapActionOptions) (m : MappingV) (src : JSValue)
    (ev1 : List Event) (folded : PropAcc) :
    ∃ mid,
      ((∃ e, (finishMap opt m false src ev1 folded).1 = Except.error e)
        ∧ (finishMap opt m false src ev1 folded).2.2 = ev1 ++ mid)
      ∨ ((∃ v, (finishMap opt m false src ev1 folded).1 = Except.ok v)
        ∧ (finishMap opt m false src ev1 folded).2.2
          = ev1 ++ mid ++ hookChoiceEvents opt.afterMap m.afterMapAction) := by
  obtain ⟨res, st2, evs, cks⟩ := folded
  cases res with
  | error e => exact ⟨evs, Or.inl ⟨⟨e, rfl⟩, rfl⟩⟩
  | ok dm =>
    obtain ⟨d2, m2⟩ := dm
    cases hA : _assertMappingErrors d2 cks with
    | error e =>
      refine ⟨evs, Or.inl ⟨⟨e, ?_⟩, ?_⟩⟩ <;> simp [finishMap, hA]
    | ok u =>
      refine ⟨evs, Or.inr ⟨⟨((runHook opt.afterMap m.afterMapAction false src d2).1, m2),
        ?_⟩, ?_⟩⟩ <;> simp [finishMap, hA, runHook_events]

/-- C8: in a single-instance map call (isArrayMap false) the event trace
always begins with the before-hook dispatch — the explicit per-call hook
when supplied, else the mapping's configured hook, else nothing, never
both — and, exactly when the call succeeds, ends with the same dispatch of
the after side; at most one hook runs per side. -/
theorem c8_hook_dispatch (env : Env) (fuel : Nat) (src : JSValue) (m : MappingV)
    (opt : MapActionOptions) (st : RegState) :
    ∃ mid,
      ((∃ e, (_map env (fuel + 1) src m opt false st).1 = Except.error e)
        ∧ (_map env (fuel + 1) src m opt false st).2.2
          = hookChoiceEvents opt.beforeMap m.beforeMapAction ++ mid)
      ∨ ((∃ v, (_map env (fuel + 1) src m opt false st).1 = Except.ok v)
        ∧ (_map env (fuel + 1) src m opt false st).2.2
          = hookChoiceEvents opt.beforeMap m.beforeMapAction ++ mid
            ++ hookChoiceEvents opt.afterMap m.afterMapAction) := by
  simp only [_map, engine]
  rw [runHook_events]
  exact finishMap_events opt m _ _ _

/-- C9: the asynchronous variants schedule exactly the synchronous
computation: forcing the deferred result of `_mapAsync` or `_mapArrayAsync`
yields precisely the result — the same destination and the same error — of
`_map` or `_mapArray` on the same arguments. -/
theorem c9_async_equals_sync (env : Env) (fuel : Nat) (sourceObj : JSValue)
    (sourceArray : List JSValue) (mapping : MappingV) (option : MapActionOptions)
    (isArrayMap : Bool) (st : RegState) :
    (_mapAsync env fuel sourceObj mapping option isArrayMap st).runDeferred
      = _map env fuel sourceObj mapping option isArrayMap st
    ∧ (_mapArrayAsync env fuel sourceArray mapping option st).runDeferred
      = _mapArray env fuel sourceArray mapping option st :=
  ⟨rfl, rfl⟩
